import Mathlib

/-!
Shallow embedding of the call-intake and triage service (`src/main.py`): an
in-memory call store and appointment store behind three HTTP handlers
(`receive_vapi_webhook`, `create_appointment`, `mark_callback`) and an AI
classification gateway (`analyze_with_ai`) with deterministic fallbacks.

Modelling conventions:
- Python dictionaries read with `.get` become structures with `Option` fields.
- Python exceptions (`KeyError` from `data["phone"]` or `ai_analysis["summary"]`)
  become `Except.error`; a handler returns its response together with the
  post-state of the two global stores, the stores being unchanged on an error
  because every raise site in the source occurs before any store mutation.
- The external classification call and its JSON parsing are parameterised by a
  `ServiceOutcome`: the call raises, its content fails to parse, or it parses
  to a JSON object whose three expected fields may each be absent.
- `datetime.now()` is passed in as an opaque `now : String`.
- Python truthiness on optional strings (`x or y`): absent and `""` are falsy.
-/

/-- A JSON scalar as the webhook `transcript` field may carry when it is not a
list; `pyStr` gives its Python `str()` rendering. -/
inductive TVal where
  | tstr (s : String)
  | tint (n : Int)
  | tbool (b : Bool)
  | tnull
deriving DecidableEq, Repr

/-- Python `str()` of a scalar value. -/
def pyStr : TVal → String
  | .tstr s => s
  | .tint n => toString n
  | .tbool true => "True"
  | .tbool false => "False"
  | .tnull => "None"

/-- One entry of a structured transcript list: a message object whose `role`
and `content` are strings or absent (a JSON `null` value also reads back as
Python `None` through `dict.get`, so it is identified with absence). -/
structure Msg where
  role : Option String
  content : Option String
deriving DecidableEq, Repr

/-- The raw `transcript` field of the webhook payload: either a list of
message objects or a non-list value. -/
inductive RawTranscript where
  | msgList (msgs : List Msg)
  | scalar (v : TVal)
deriving DecidableEq, Repr

/-- Python f-string interpolation of `m.get("role")`: the value when present,
`"None"` when `dict.get` returns `None`. -/
def pyGetStr (o : Option String) : String :=
  match o with
  | some s => s
  | none => "None"

/-- Transcript construction of `receive_vapi_webhook` (main.py lines 85-89):
a list is flattened to newline-joined `"role: content"` lines, anything else
passes through Python `str()`. -/
def buildTranscript : RawTranscript → String
  | .msgList msgs =>
      String.intercalate "\n" (msgs.map (fun m => pyGetStr m.role ++ ": " ++ pyGetStr m.content))
  | .scalar v => pyStr v

/-- The nested `customer` object under the `call` entry of the payload. -/
structure Customer where
  number : Option String
  phoneNumber : Option String
deriving DecidableEq, Repr

/-- The `call` entry of the payload. -/
structure CallInfo where
  customer : Option Customer
deriving DecidableEq, Repr

/-- The `message` entry of the payload (the `call_data` of the source). -/
structure MsgData where
  type : Option String
  transcript : Option RawTranscript
  callId : Option String
  duration : Option Int
deriving DecidableEq, Repr

/-- A webhook payload, restricted to the fields the handler reads. -/
structure WebhookPayload where
  message : Option MsgData
  call : Option CallInfo
deriving DecidableEq, Repr

/-- Python `a or b` for an optional string `a`: absent and `""` are falsy. -/
def orElseStr (a : Option String) (b : String) : String :=
  match a with
  | some s => if s = "" then b else s
  | none => b

/-- The `type` field nested under `message`, with empty-string defaults
(main.py line 72). -/
def messageType (p : WebhookPayload) : String :=
  match p.message with
  | none => ""
  | some m => m.type.getD ""

/-- Phone extraction (main.py lines 79-82): only when `"call" in data`, chase
`customer.get("number") or customer.get("phoneNumber") or "Unknown"`. -/
def extractPhone (p : WebhookPayload) : String :=
  match p.call with
  | none => "Unknown"
  | some ci =>
      match ci.customer with
      | none => "Unknown"
      | some customer => orElseStr customer.number (orElseStr customer.phoneNumber "Unknown")

/-- `call_data.get("transcript", "")` (main.py line 85): an absent field is the
empty Python string, which takes the non-list branch. -/
def rawTranscriptOf (p : WebhookPayload) : RawTranscript :=
  match p.message with
  | none => .scalar (.tstr "")
  | some m => m.transcript.getD (.scalar (.tstr ""))

/-- `call_data.get("callId")` (main.py line 96). -/
def chosenCallId (p : WebhookPayload) : Option String :=
  match p.message with
  | none => none
  | some m => m.callId

/-- `call_data.get("duration", 0)` (main.py line 102). -/
def durationOf (p : WebhookPayload) : Int :=
  match p.message with
  | none => 0
  | some m => m.duration.getD 0

/-- The JSON object `json.loads` produces from the reply of the model: each of
the three expected fields may be absent. -/
structure AIAnalysis where
  summary : Option String
  urgency : Option String
  category : Option String
deriving DecidableEq, Repr

/-- Behaviour of the external classification call inside the `try` block of
`analyze_with_ai`: the API call raises (network/timeout/service error), the
returned content fails `json.loads`, or it parses to a JSON object. -/
inductive ServiceOutcome where
  | raises
  | unparsable
  | parsed (a : AIAnalysis)
deriving DecidableEq, Repr

/-- Python falsiness of the credential (`if not GROQ_API_KEY`): unset or empty. -/
def pyFalsy (key : Option String) : Bool :=
  match key with
  | none => true
  | some s => s = ""

/-- `analyze_with_ai` (main.py lines 31-65): missing key gives the fixed
"AI Key Missing" fallback; a raising call or unparsable content is caught by
the bare `except` and gives the fixed "Analysis failed" fallback; a parsed
object is returned unchanged. Total: no path raises to the caller. -/
def analyze_with_ai (apiKey : Option String) (outcome : ServiceOutcome)
    (transcript : String) : AIAnalysis :=
  if pyFalsy apiKey then
    { summary := some "AI Key Missing", urgency := some "ROUTINE", category := some "General" }
  else
    match outcome with
    | .raises =>
        { summary := some "Analysis failed", urgency := some "ROUTINE", category := some "Unknown" }
    | .unparsable =>
        { summary := some "Analysis failed", urgency := some "ROUTINE", category := some "Unknown" }
    | .parsed a => a

/-- A stored call record (main.py lines 95-105). -/
structure CallRecord where
  id : String
  phone : String
  transcript : String
  summary : String
  urgency : String
  category : String
  duration : Int
  timestamp : String
  called_back : Bool
deriving DecidableEq, Repr

/-- A stored appointment record (main.py lines 122-129). -/
structure Appt where
  id : String
  title : String
  start : String
  patient : String
  notes : String
  type : String
deriving DecidableEq, Repr

/-- The two global in-memory databases (main.py lines 27-28). -/
structure Stores where
  calls_database : List CallRecord
  appointments_database : List Appt
deriving DecidableEq, Repr

/-- A `\x7b"status": ...\x7d` JSON response. -/
structure StatusResp where
  status : String
deriving DecidableEq, Repr

/-- The `\x7b"status": "success", "appointment": ...\x7d` response. -/
structure ApptResp where
  status : String
  appointment : Appt
deriving DecidableEq, Repr

/-- `POST /webhook/vapi` (main.py lines 69-109). A non-matching event type
returns `skipped` untouched; otherwise phone, transcript and AI analysis are
computed and then the record dict is built, whose `summary`/`urgency`/
`category` entries index `ai_analysis` directly and raise `KeyError` when the
parsed object lacks the field (before any append, so the stores are unchanged
on that path). On success exactly one record is appended. -/
def receive_vapi_webhook (apiKey : Option String) (outcome : ServiceOutcome)
    (now : String) (s : Stores) (p : WebhookPayload) :
    Except String StatusResp × Stores :=
  if messageType p ≠ "end-of-call-report" then
    (.ok { status := "skipped" }, s)
  else
    let phone := extractPhone p
    let transcript := buildTranscript (rawTranscriptOf p)
    let ai_analysis := analyze_with_ai apiKey outcome transcript
    match ai_analysis.summary with
    | none => (.error "KeyError: summary", s)
    | some su =>
      match ai_analysis.urgency with
      | none => (.error "KeyError: urgency", s)
      | some ur =>
        match ai_analysis.category with
        | none => (.error "KeyError: category", s)
        | some cat =>
          let call_record : CallRecord :=
            { id := orElseStr (chosenCallId p) (toString (s.calls_database.length + 1)),
              phone := phone,
              transcript := transcript,
              summary := su,
              urgency := ur,
              category := cat,
              duration := durationOf p,
              timestamp := now,
              called_back := false }
          (.ok { status := "success" },
           { s with calls_database := s.calls_database ++ [call_record] })

/-- A `POST /api/appointments` request body, restricted to the fields read. -/
structure ApptRequest where
  phone : Option String
  date : Option String
  time : Option String
  notes : Option String
  call_id : Option String
deriving DecidableEq, Repr

/-- `POST /api/appointments` (main.py lines 119-137). The appointment dict is
built first — `data["phone"]`, `data["date"]`, `data["time"]` raise `KeyError`
in that evaluation order when absent, before any store is touched — then the
appointment is appended and every call record whose id equals
`data.get("call_id")` has `called_back` set to `True`. -/
def create_appointment (s : Stores) (d : ApptRequest) :
    Except String ApptResp × Stores :=
  match d.phone with
  | none => (.error "KeyError: phone", s)
  | some ph =>
    match d.date with
    | none => (.error "KeyError: date", s)
    | some dt =>
      match d.time with
      | none => (.error "KeyError: time", s)
      | some tm =>
        let appt : Appt :=
          { id := toString (s.appointments_database.length + 1),
            title := "Callback: " ++ ph,
            start := dt ++ "T" ++ tm,
            patient := ph,
            notes := d.notes.getD "",
            type := "callback" }
        (.ok { status := "success", appointment := appt },
         { calls_database :=
             s.calls_database.map (fun c =>
               if some c.id = d.call_id then { c with called_back := true } else c),
           appointments_database := s.appointments_database ++ [appt] })

/-- `POST /api/calls/(call_id)/callback` (main.py lines 139-144): sets
`called_back` on every matching record and always answers `updated`. -/
def mark_callback (s : Stores) (call_id : String) : StatusResp × Stores :=
  ({ status := "updated" },
   { s with calls_database :=
       s.calls_database.map (fun c =>
         if c.id = call_id then { c with called_back := true } else c) })

/-- All three expected classification fields are present in the analysis
object (true on every fallback path and on complete parsed replies). -/
def AIComplete (a : AIAnalysis) : Prop :=
  a.summary.isSome = true ∧ a.urgency.isSome = true ∧ a.category.isSome = true

/-- On the matching event type with a complete analysis object, the webhook
handler answers success and appends the one record built from the payload. -/
theorem webhook_success_eq (apiKey : Option String) (outcome : ServiceOutcome)
    (now : String) (s : Stores) (p : WebhookPayload) (su ur cat : String)
    (hty : messageType p = "end-of-call-report")
    (hs : (analyze_with_ai apiKey outcome (buildTranscript (rawTranscriptOf p))).summary = some su)
    (hu : (analyze_with_ai apiKey outcome (buildTranscript (rawTranscriptOf p))).urgency = some ur)
    (hc : (analyze_with_ai apiKey outcome (buildTranscript (rawTranscriptOf p))).category = some cat) :
    receive_vapi_webhook apiKey outcome now s p =
      (.ok { status := "success" },
       { s with calls_database := s.calls_database ++
           [{ id := orElseStr (chosenCallId p) (toString (s.calls_database.length + 1)),
              phone := extractPhone p,
              transcript := buildTranscript (rawTranscriptOf p),
              summary := su, urgency := ur, category := cat,
              duration := durationOf p, timestamp := now, called_back := false }] }) := by
  simp [receive_vapi_webhook, hty, hs, hu, hc]

/-- C2: for every input transcript, a missing or empty credential yields
exactly the "AI Key Missing" fallback; a raising call or unparsable content
yields exactly the "Analysis failed" fallback; a parsed object passes through
unchanged — together with the total return type of `analyze_with_ai`, no case
raises to the caller. -/
theorem C2_classifier_fallback_determinism (transcript : String)
    (apiKey : Option String) (outcome : ServiceOutcome) :
    (pyFalsy apiKey = true →
      analyze_with_ai apiKey outcome transcript =
        { summary := some "AI Key Missing", urgency := some "ROUTINE",
          category := some "General" }) ∧
    (pyFalsy apiKey = false → outcome = .raises ∨ outcome = .unparsable →
      analyze_with_ai apiKey outcome transcript =
        { summary := some "Analysis failed", urgency := some "ROUTINE",
          category := some "Unknown" }) ∧
    (∀ a : AIAnalysis, pyFalsy apiKey = false → outcome = .parsed a →
      analyze_with_ai apiKey outcome transcript = a) := by
  refine ⟨fun h => ?_, fun h ho => ?_, fun a h ho => ?_⟩
  · simp [analyze_with_ai, h]
  · rcases ho with ho | ho <;> simp [analyze_with_ai, h, ho]
  · simp [analyze_with_ai, h, ho]

/-- Witness for C2 at a concrete transcript with no credential. -/
theorem C2_witness :
    analyze_with_ai none .raises "I have chest pain" =
      { summary := some "AI Key Missing", urgency := some "ROUTINE",
        category := some "General" } :=
  (C2_classifier_fallback_determinism "I have chest pain" none .raises).1 rfl

/-- C3: a payload whose event type is not "end-of-call-report" gets the skip
acknowledgement and both stores back exactly as they were. -/
theorem C3_skip_leaves_stores_unchanged (apiKey : Option String)
    (outcome : ServiceOutcome) (now : String) (s : Stores) (p : WebhookPayload)
    (h : messageType p ≠ "end-of-call-report") :
    receive_vapi_webhook apiKey outcome now s p = (.ok { status := "skipped" }, s) := by
  simp [receive_vapi_webhook, h]

/-- Witness for C3 at a concrete status-update payload and non-empty stores. -/
theorem C3_witness :
    receive_vapi_webhook none .raises "t"
        { calls_database := [{ id := "1", phone := "555", transcript := "",
                               summary := "s", urgency := "ROUTINE", category := "General",
                               duration := 0, timestamp := "t0", called_back := false }],
          appointments_database := [] }
        { message := some { type := some "status-update", transcript := none,
                            callId := none, duration := none },
          call := none } =
      (.ok { status := "skipped" },
       { calls_database := [{ id := "1", phone := "555", transcript := "",
                              summary := "s", urgency := "ROUTINE", category := "General",
                              duration := 0, timestamp := "t0", called_back := false }],
         appointments_database := [] }) :=
  C3_skip_leaves_stores_unchanged none .raises "t" _ _ (by decide)

/-- C4: an appointment request missing phone, date or time raises before any
mutation: the response is an error and both stores come back unchanged. -/
theorem C4_missing_field_errors_without_mutation (s : Stores) (d : ApptRequest)
    (h : d.phone = none ∨ d.date = none ∨ d.time = none) :
    ∃ e : String, create_appointment s d = (.error e, s) := by
  rcases h with h | h | h
  · exact ⟨"KeyError: phone", by simp [create_appointment, h]⟩
  · cases hp : d.phone with
    | none => exact ⟨"KeyError: phone", by simp [create_appointment, hp]⟩
    | some ph => exact ⟨"KeyError: date", by simp [create_appointment, hp, h]⟩
  · cases hp : d.phone with
    | none => exact ⟨"KeyError: phone", by simp [create_appointment, hp]⟩
    | some ph =>
      cases hd : d.date with
      | none => exact ⟨"KeyError: date", by simp [create_appointment, hp, hd]⟩
      | some dt => exact ⟨"KeyError: time", by simp [create_appointment, hp, hd, h]⟩

/-- Witness for C4 at a concrete request missing `date`. -/
theorem C4_witness :
    ∃ e : String,
      create_appointment { calls_database := [], appointments_database := [] }
          { phone := some "555-0100", date := none, time := some "10:00",
            notes := none, call_id := none } =
        (.error e, { calls_database := [], appointments_database := [] }) :=
  C4_missing_field_errors_without_mutation _ _ (Or.inr (Or.inl rfl))

/-- C8: marking a callback twice equals marking it once; the store keeps its
length, and after both the first and the second invocation every record whose
id matches has `called_back = true`. -/
theorem C8_mark_callback_idempotent (s : Stores) (call_id : String) :
    mark_callback (mark_callback s call_id).2 call_id = mark_callback s call_id ∧
    (mark_callback s call_id).2.calls_database.length = s.calls_database.length ∧
    (∀ c ∈ (mark_callback s call_id).2.calls_database,
      c.id = call_id → c.called_back = true) ∧
    (∀ c ∈ (mark_callback (mark_callback s call_id).2 call_id).2.calls_database,
      c.id = call_id → c.called_back = true) := by
  have key : ∀ l : List CallRecord,
      (l.map (fun c => if c.id = call_id then { c with called_back := true } else c)).map
        (fun c => if c.id = call_id then { c with called_back := true } else c) =
      l.map (fun c => if c.id = call_id then { c with called_back := true } else c) := by
    intro l
    induction l with
    | nil => rfl
    | cons c t ih =>
      simp only [List.map_cons, List.cons.injEq]
      refine ⟨?_, ih⟩
      by_cases h : c.id = call_id <;> simp [h]
  have h1 : mark_callback (mark_callback s call_id).2 call_id = mark_callback s call_id := by
    simp only [mark_callback, Prod.mk.injEq, Stores.mk.injEq]
    exact ⟨trivial, key s.calls_database, trivial⟩
  have h3 : ∀ c ∈ (mark_callback s call_id).2.calls_database,
      c.id = call_id → c.called_back = true := by
    intro c hc hid
    simp only [mark_callback] at hc
    rcases List.mem_map.1 hc with ⟨c0, _, rfl⟩
    by_cases h : c0.id = call_id
    · simp [h]
    · simp only [if_neg h] at hid ⊢
      exact absurd hid h
  exact ⟨h1, by simp [mark_callback], h3, by rw [h1]; exact h3⟩

/-- An end-of-call payload carrying the external call id "2". -/
def payloadWithCallIdTwo : WebhookPayload :=
  { message := some { type := some "end-of-call-report", transcript := none,
                      callId := some "2", duration := none },
    call := none }

/-- An end-of-call payload with no external call id. -/
def payloadWithoutCallId : WebhookPayload :=
  { message := some { type := some "end-of-call-report", transcript := none,
                      callId := none, duration := none },
    call := none }

/-- C1 counterexample: after a webhook whose external callId is "2", a second
webhook without a callId is auto-assigned str(1 + 1) = "2" as well — the
second insert succeeds yet its id equals an id already in the store, so the
new id is not distinct from all prior ids. -/
theorem C1_counterexample :
    ((receive_vapi_webhook none .raises "t1"
        (receive_vapi_webhook none .raises "t0"
          { calls_database := [], appointments_database := [] }
          payloadWithCallIdTwo).2
        payloadWithoutCallId).2.calls_database.map CallRecord.id = ["2", "2"]) ∧
    ((receive_vapi_webhook none .raises "t1"
        (receive_vapi_webhook none .raises "t0"
          { calls_database := [], appointments_database := [] }
          payloadWithCallIdTwo).2
        payloadWithoutCallId).1 = .ok { status := "success" }) :=
  ⟨rfl, rfl⟩

/-- C1 (amended): an end-of-call payload with a complete analysis object
appends exactly one record, whose id is the truthy callId of the payload if
any, else str(prior size + 1); that id is distinct from all prior ids
provided the chosen id does not already occur in the store (an external
callId may collide with an auto-assigned id, so this proviso is needed). -/
theorem C1_insert_appends_one_with_fresh_id (apiKey : Option String)
    (outcome : ServiceOutcome) (now : String) (s : Stores) (p : WebhookPayload)
    (hty : messageType p = "end-of-call-report")
    (hai : AIComplete (analyze_with_ai apiKey outcome (buildTranscript (rawTranscriptOf p))))
    (hfresh : orElseStr (chosenCallId p) (toString (s.calls_database.length + 1)) ∉
        s.calls_database.map CallRecord.id) :
    ∃ rec : CallRecord,
      receive_vapi_webhook apiKey outcome now s p =
        (.ok { status := "success" },
         { s with calls_database := s.calls_database ++ [rec] }) ∧
      rec.id = orElseStr (chosenCallId p) (toString (s.calls_database.length + 1)) ∧
      rec.id ∉ s.calls_database.map CallRecord.id := by
  obtain ⟨hs, hu, hc⟩ := hai
  rw [Option.isSome_iff_exists] at hs hu hc
  obtain ⟨su, hs⟩ := hs
  obtain ⟨ur, hu⟩ := hu
  obtain ⟨cat, hc⟩ := hc
  exact ⟨_, webhook_success_eq apiKey outcome now s p su ur cat hty hs hu hc, rfl, hfresh⟩

/-- Witness for C1 at an empty store and a concrete no-callId payload. -/
theorem C1_witness :
    ∃ rec : CallRecord,
      receive_vapi_webhook none .raises "t"
          { calls_database := [], appointments_database := [] }
          payloadWithoutCallId =
        (.ok { status := "success" },
         { calls_database := [rec], appointments_database := [] }) ∧
      rec.id = "1" ∧
      rec.id ∉ ([] : List CallRecord).map CallRecord.id :=
  C1_insert_appends_one_with_fresh_id none .raises "t"
    { calls_database := [], appointments_database := [] }
    payloadWithoutCallId rfl ⟨rfl, rfl, rfl⟩ (by decide)

/-- An end-of-call payload used for the missing-field defect evaluation. -/
def endOfCallPayload : WebhookPayload :=
  { message := some { type := some "end-of-call-report",
                      transcript := some (.msgList [{ role := some "user", content := some "hello" }]),
                      callId := some "abc", duration := some 30 },
    call := none }

/-- C6: with a configured key and a service reply that parses to a JSON object
lacking "summary", the handler raises KeyError while building the record dict:
the request fails and no record is stored, contradicting the claim that a
missing field is tolerated and a record still stored. -/
theorem C6_missing_field_crashes_request :
    receive_vapi_webhook (some "gsk_live_key")
        (.parsed { summary := none, urgency := some "ROUTINE", category := some "General" })
        "t" { calls_database := [], appointments_database := [] } endOfCallPayload =
      (.error "KeyError: summary",
       { calls_database := [], appointments_database := [] }) :=
  rfl

/-- Modelled from the words of the spec: the per-message rendering
"role: content", with an absent role or content appearing as the placeholder
token rather than failing. -/
def specRenderMsg (m : Msg) : String :=
  (match m.role with
   | some r => r
   | none => "None") ++ ": " ++
  (match m.content with
   | some c => c
   | none => "None")

/-- Newline separators between consecutive renderings, in original order,
spelled by direct recursion on the list. -/
def joinLines : List String → String
  | [] => ""
  | [x] => x
  | x :: y :: t => x ++ "\n" ++ joinLines (y :: t)

/-- Separator-prefixed concatenation, describing the accumulator loop of
`String.intercalate`. -/
def joinSep (sep : String) : List String → String
  | [] => ""
  | a :: t => sep ++ a ++ joinSep sep t

theorem intercalate_go_eq (sep : String) :
    ∀ (as : List String) (acc : String),
      String.intercalate.go acc sep as = acc ++ joinSep sep as := by
  intro as
  induction as with
  | nil => intro acc; simp [String.intercalate.go, joinSep]
  | cons a t ih =>
    intro acc
    rw [String.intercalate.go, ih, joinSep]
    simp [String.append_assoc]

theorem joinLines_eq_joinSep :
    ∀ (t : List String) (a : String), joinLines (a :: t) = a ++ joinSep "\n" t := by
  intro t
  induction t with
  | nil => intro a; simp [joinLines, joinSep]
  | cons y t ih =>
    intro a
    rw [joinLines, ih y, joinSep]
    simp [String.append_assoc]

/-- `String.intercalate` with a newline is exactly the recursive newline join. -/
theorem intercalate_newline_eq_joinLines (l : List String) :
    String.intercalate "\n" l = joinLines l := by
  cases l with
  | nil => rfl
  | cons a t =>
    rw [String.intercalate, intercalate_go_eq, joinLines_eq_joinSep]

/-- Modelled from the words of claim C5: a list of message objects is stored
as the per-message renderings joined by newline separators in original order;
any non-list value is stored as its string form; the caller substitutes the
empty string for an absent field before this function is reached. -/
def spec_transcript : RawTranscript → String
  | .msgList msgs => joinLines (msgs.map specRenderMsg)
  | .scalar v => pyStr v

/-- C5: on the success path, the stored transcript of the appended record is
exactly the spec rendering of the raw transcript field — newline-joined
"role: content" lines with the "None" placeholder for absent role or content
when the field is a list, the string form of the value otherwise — and an
absent transcript field yields the empty string. -/
theorem C5_stored_transcript_matches_spec (apiKey : Option String)
    (outcome : ServiceOutcome) (now : String) (s : Stores) (p : WebhookPayload)
    (hty : messageType p = "end-of-call-report")
    (hai : AIComplete (analyze_with_ai apiKey outcome (buildTranscript (rawTranscriptOf p)))) :
    ∃ rec : CallRecord,
      receive_vapi_webhook apiKey outcome now s p =
        (.ok { status := "success" },
         { s with calls_database := s.calls_database ++ [rec] }) ∧
      rec.transcript = spec_transcript (rawTranscriptOf p) ∧
      (∀ m : MsgData, p.message = some m → m.transcript = none → rec.transcript = "") := by
  obtain ⟨hs, hu, hc⟩ := hai
  rw [Option.isSome_iff_exists] at hs hu hc
  obtain ⟨su, hs⟩ := hs
  obtain ⟨ur, hu⟩ := hu
  obtain ⟨cat, hc⟩ := hc
  refine ⟨_, webhook_success_eq apiKey outcome now s p su ur cat hty hs hu hc, ?_, ?_⟩
  · show buildTranscript (rawTranscriptOf p) = spec_transcript (rawTranscriptOf p)
    cases rawTranscriptOf p with
    | msgList msgs =>
      show String.intercalate "\n" _ = joinLines _
      rw [intercalate_newline_eq_joinLines]
      rfl
    | scalar v => rfl
  · intro m hm hnone
    show buildTranscript (rawTranscriptOf p) = ""
    simp [rawTranscriptOf, hm, hnone, buildTranscript, pyStr]

/-- A payload whose transcript is a two-message list, the second message
missing its role. -/
def structuredTranscriptPayload : WebhookPayload :=
  { message := some { type := some "end-of-call-report",
                      transcript := some (.msgList
                        [{ role := some "assistant", content := some "How can I help?" },
                         { role := none, content := some "My arm hurts" }]),
                      callId := none, duration := some 12 },
    call := none }

/-- Witness for C5 at a concrete structured-list payload. -/
theorem C5_witness :
    ∃ rec : CallRecord,
      receive_vapi_webhook none .raises "t"
          { calls_database := [], appointments_database := [] }
          structuredTranscriptPayload =
        (.ok { status := "success" },
         { calls_database := [rec], appointments_database := [] }) ∧
      rec.transcript = spec_transcript (rawTranscriptOf structuredTranscriptPayload) ∧
      (∀ m : MsgData, structuredTranscriptPayload.message = some m →
        m.transcript = none → rec.transcript = "") :=
  C5_stored_transcript_matches_spec none .raises "t"
    { calls_database := [], appointments_database := [] }
    structuredTranscriptPayload rfl ⟨rfl, rfl, rfl⟩

/-- C7: a valid appointment request always creates and returns the built
appointment; every call record whose id equals the supplied call_id has
`called_back` set to true with all its other fields kept, every other call
record is unchanged, and when nothing matches the call store is exactly as
before. -/
theorem C7_appointment_cross_update (s : Stores) (d : ApptRequest)
    (ph dt tm : String)
    (hph : d.phone = some ph) (hdt : d.date = some dt) (htm : d.time = some tm) :
    ∃ a : Appt,
      (create_appointment s d).1 = .ok { status := "success", appointment := a } ∧
      (create_appointment s d).2.appointments_database = s.appointments_database ++ [a] ∧
      (∀ (i : Nat) (c : CallRecord), s.calls_database[i]? = some c →
          some c.id = d.call_id →
          (create_appointment s d).2.calls_database[i]? =
            some { c with called_back := true }) ∧
      (∀ (i : Nat) (c : CallRecord), s.calls_database[i]? = some c →
          some c.id ≠ d.call_id →
          (create_appointment s d).2.calls_database[i]? = some c) ∧
      ((∀ c ∈ s.calls_database, some c.id ≠ d.call_id) →
          (create_appointment s d).2.calls_database = s.calls_database) := by
  refine ⟨{ id := toString (s.appointments_database.length + 1),
            title := "Callback: " ++ ph,
            start := dt ++ "T" ++ tm,
            patient := ph,
            notes := d.notes.getD "",
            type := "callback" }, ?_, ?_, ?_, ?_, ?_⟩
  · simp [create_appointment, hph, hdt, htm]
  · simp [create_appointment, hph, hdt, htm]
  · intro i c hc hid
    simp [create_appointment, hph, hdt, htm, List.getElem?_map, hc, hid]
  · intro i c hc hid
    simp only [create_appointment, hph, hdt, htm]
    simp [List.getElem?_map, hc]
    intro h
    exact absurd h hid
  · intro hall
    simp only [create_appointment, hph, hdt, htm]
    calc s.calls_database.map (fun c =>
            if some c.id = d.call_id then { c with called_back := true } else c)
        = s.calls_database.map id :=
          List.map_congr_left (fun c hc => if_neg (hall c hc))
      _ = s.calls_database := List.map_id s.calls_database

/-- A call record with id "7" awaiting a callback. -/
def callRecordSeven : CallRecord :=
  { id := "7", phone := "555-0100", transcript := "", summary := "s",
    urgency := "ROUTINE", category := "General", duration := 0,
    timestamp := "t", called_back := false }

/-- An appointment request whose call_id matches `callRecordSeven`. -/
def apptReqForSeven : ApptRequest :=
  { phone := some "555-0100", date := some "2025-03-01", time := some "09:30",
    notes := none, call_id := some "7" }

/-- Witness for C7 at a one-record store and a matching request. -/
theorem C7_witness :
    ∃ a : Appt,
      (create_appointment { calls_database := [callRecordSeven], appointments_database := [] }
          apptReqForSeven).1 = .ok { status := "success", appointment := a } ∧
      (create_appointment { calls_database := [callRecordSeven], appointments_database := [] }
          apptReqForSeven).2.appointments_database = [] ++ [a] ∧
      (∀ (i : Nat) (c : CallRecord), [callRecordSeven][i]? = some c →
          some c.id = apptReqForSeven.call_id →
          (create_appointment { calls_database := [callRecordSeven], appointments_database := [] }
              apptReqForSeven).2.calls_database[i]? =
            some { c with called_back := true }) ∧
      (∀ (i : Nat) (c : CallRecord), [callRecordSeven][i]? = some c →
          some c.id ≠ apptReqForSeven.call_id →
          (create_appointment { calls_database := [callRecordSeven], appointments_database := [] }
              apptReqForSeven).2.calls_database[i]? = some c) ∧
      ((∀ c ∈ [callRecordSeven], some c.id ≠ apptReqForSeven.call_id) →
          (create_appointment { calls_database := [callRecordSeven], appointments_database := [] }
              apptReqForSeven).2.calls_database = [callRecordSeven]) :=
  C7_appointment_cross_update
    { calls_database := [callRecordSeven], appointments_database := [] }
    apptReqForSeven "555-0100" "2025-03-01" "09:30" rfl rfl rfl

/-- C9: both scans set `called_back` on every record whose id equals the
supplied id, not only the first match, leave non-matching records untouched,
and the callback endpoint answers "updated" whether or not anything matched. -/
theorem C9_every_match_marked (s : Stores) (cid : String) (d : ApptRequest)
    (ph dt tm : String)
    (hph : d.phone = some ph) (hdt : d.date = some dt) (htm : d.time = some tm)
    (hcid : d.call_id = some cid) :
    (mark_callback s cid).1 = { status := "updated" } ∧
    (∀ (i : Nat) (c : CallRecord), s.calls_database[i]? = some c → c.id = cid →
        (mark_callback s cid).2.calls_database[i]? =
          some { c with called_back := true }) ∧
    (∀ (i : Nat) (c : CallRecord), s.calls_database[i]? = some c → c.id ≠ cid →
        (mark_callback s cid).2.calls_database[i]? = some c) ∧
    (∀ (i : Nat) (c : CallRecord), s.calls_database[i]? = some c → c.id = cid →
        (create_appointment s d).2.calls_database[i]? =
          some { c with called_back := true }) ∧
    (∀ (i : Nat) (c : CallRecord), s.calls_database[i]? = some c → c.id ≠ cid →
        (create_appointment s d).2.calls_database[i]? = some c) := by
  refine ⟨rfl, ?_, ?_, ?_, ?_⟩
  · intro i c hc hid
    simp [mark_callback, List.getElem?_map, hc, hid]
  · intro i c hc hid
    simp [mark_callback, List.getElem?_map, hc, hid]
  · intro i c hc hid
    simp [create_appointment, hph, hdt, htm, hcid, List.getElem?_map, hc, hid]
  · intro i c hc hid
    simp [create_appointment, hph, hdt, htm, hcid, List.getElem?_map, hc, hid]

/-- Two distinct call records sharing the id "9". -/
def dupRecordA : CallRecord :=
  { id := "9", phone := "555-0101", transcript := "", summary := "a",
    urgency := "ROUTINE", category := "General", duration := 0,
    timestamp := "t1", called_back := false }

/-- Second record with the same id "9" (an external callId collision). -/
def dupRecordB : CallRecord :=
  { id := "9", phone := "555-0102", transcript := "", summary := "b",
    urgency := "ROUTINE", category := "General", duration := 0,
    timestamp := "t2", called_back := false }

/-- An appointment request whose call_id is the duplicated id "9". -/
def apptReqForNine : ApptRequest :=
  { phone := some "555-0101", date := some "2025-03-02", time := some "11:00",
    notes := some "n", call_id := some "9" }

/-- Witness for C9 at a store holding two records with the same id. -/
theorem C9_witness :
    (mark_callback { calls_database := [dupRecordA, dupRecordB], appointments_database := [] }
        "9").1 = { status := "updated" } ∧
    (∀ (i : Nat) (c : CallRecord), [dupRecordA, dupRecordB][i]? = some c → c.id = "9" →
        (mark_callback { calls_database := [dupRecordA, dupRecordB], appointments_database := [] }
            "9").2.calls_database[i]? = some { c with called_back := true }) ∧
    (∀ (i : Nat) (c : CallRecord), [dupRecordA, dupRecordB][i]? = some c → c.id ≠ "9" →
        (mark_callback { calls_database := [dupRecordA, dupRecordB], appointments_database := [] }
            "9").2.calls_database[i]? = some c) ∧
    (∀ (i : Nat) (c : CallRecord), [dupRecordA, dupRecordB][i]? = some c → c.id = "9" →
        (create_appointment { calls_database := [dupRecordA, dupRecordB], appointments_database := [] }
            apptReqForNine).2.calls_database[i]? = some { c with called_back := true }) ∧
    (∀ (i : Nat) (c : CallRecord), [dupRecordA, dupRecordB][i]? = some c → c.id ≠ "9" →
        (create_appointment { calls_database := [dupRecordA, dupRecordB], appointments_database := [] }
            apptReqForNine).2.calls_database[i]? = some c) :=
  C9_every_match_marked
    { calls_database := [dupRecordA, dupRecordB], appointments_database := [] }
    "9" apptReqForNine "555-0101" "2025-03-02" "11:00" rfl rfl rfl rfl
